import Mathlib

/-!
Verification of the ArcGIS Icon Browser plugin controller
(`src/unnamed/part_000`, the mode-aware build; `src/code.ts` is an older
build without modes). We embed the message handlers as pure Lean
functions over an explicit host environment and prove the spec's claims
about identifier resolution, row-wrap layout, batch error handling and
the client-storage cache.
-/

namespace IconEsri

/-- JS truthiness of an optional string field: present and non-empty. -/
def truthyStr : Option String → Bool
  | some s => !s.isEmpty
  | none => false

/-- One catalog entry, after `iconData` in the source.  `variant_keys` is a
JS object mapping mode tags to keys (absent object modelled as `none`);
`component_key` is an optional string. -/
structure IconRecord where
  icon_name : String
  size : Nat
  variant_keys : Option (List (String × String))
  component_key : Option String
  deriving Repr, DecidableEq

/-- `iconData.variant_keys[m]`: lookup of mode tag `m` in the variant map,
`none` when the map itself is absent. -/
def vkLookup (r : IconRecord) (m : String) : Option String :=
  match r.variant_keys with
  | some vk => vk.lookup m
  | none => none

/-- The resolution chain of the source (both the single and the batch
handler use this exact if/else chain):
`variant_keys[mode]` if truthy, else `variant_keys.A` if truthy, else
`component_key` if truthy, else null. -/
def resolveKey (r : IconRecord) (m : String) : Option String :=
  if truthyStr (vkLookup r m) then vkLookup r m
  else if truthyStr (vkLookup r "A") then vkLookup r "A"
  else if truthyStr r.component_key then r.component_key
  else none

/-- Modelled from the spec (§4.1): the four numbered resolution steps,
written from the spec's words, to be compared with `resolveKey`. -/
def specResolve (r : IconRecord) (m : String) : Option String :=
  match vkLookup r m with
  | some s =>
    if s ≠ "" then some s
    else match vkLookup r "A" with
      | some a =>
        if a ≠ "" then some a
        else match r.component_key with
          | some c => if c ≠ "" then some c else none
          | none => none
      | none => match r.component_key with
        | some c => if c ≠ "" then some c else none
        | none => none
  | none => match vkLookup r "A" with
    | some a =>
      if a ≠ "" then some a
      else match r.component_key with
        | some c => if c ≠ "" then some c else none
        | none => none
    | none => match r.component_key with
      | some c => if c ≠ "" then some c else none
      | none => none

/-- `msg.mode || 'A'`: an absent or empty mode string defaults to "A". -/
def effMode : Option String → String
  | some s => if s.isEmpty then "A" else s
  | none => "A"

/-- A truthiness-guarded `if` over an optional string is the same as the
spec's "exists and is non-empty" guard. -/
theorem truthy_ite (o x : Option String) :
    (if truthyStr o then o else x) =
      (match o with
       | some s => if s ≠ "" then some s else x
       | none => x) := by
  cases o with
  | none => rfl
  | some s =>
    cases hb : s.isEmpty with
    | true =>
      have hs : s = "" := (String.isEmpty_iff s).mp hb
      subst hs
      simp [truthyStr, hb]
    | false =>
      have hs : s ≠ "" := by
        intro e
        subst e
        exact absurd hb (by decide)
      simp [truthyStr, hb, hs]

theorem resolveKey_eq_specResolve (r : IconRecord) (m : String) :
    resolveKey r m = specResolve r m := by
  unfold resolveKey specResolve
  simp only [truthy_ite]

/-! ## Host environment and handler traces -/

/-- The host canvas facilities the controller uses: the viewport center,
whether `importComponentByKeyAsync` succeeds for a key, and the intrinsic
width/height of the component a key denotes. -/
structure HostEnv where
  centerX : ℚ
  centerY : ℚ
  canImport : String → Bool
  width : String → ℚ
  height : String → ℚ

/-- A placed instance: top-left corner and dimensions. -/
structure Placed where
  x : ℚ
  y : ℚ
  w : ℚ
  h : ℚ
  deriving Repr, DecidableEq

/-- A `figma.notify` call: message text plus the error flag. -/
inductive Note where
  | info (text : String)
  | err (text : String)
  deriving Repr, DecidableEq

/-- Observable outcome of handling one message: host import calls in
order, instances created on the canvas, the selection if it was set,
whether `scrollAndZoomIntoView` ran, notifications, and whether the
handler threw outside any try/catch (an unhandled exception). -/
structure Trace where
  hostCalls : List String
  placed : List Placed
  selected : Option (List Placed)
  scrolled : Bool
  notes : List Note
  crashed : Bool
  deriving Repr, DecidableEq

/-- The empty trace: nothing happened. -/
def Trace.nil : Trace :=
  { hostCalls := [], placed := [], selected := none, scrolled := false,
    notes := [], crashed := false }

/-- The `insert-icon` handler of `part_000`.  `iconData` is `msg.iconData`
(possibly absent), `mo` is `msg.mode`.  Note the source reads
`iconData.variant_keys` before any null check, so an absent `iconData`
throws a TypeError outside the try/catch. -/
def handleInsertIcon (env : HostEnv) (iconData : Option IconRecord)
    (mo : Option String) : Trace :=
  let m := effMode mo
  match iconData with
  | none => { Trace.nil with crashed := true }
  | some r =>
    match resolveKey r m with
    | none =>
      { Trace.nil with notes := [Note.err "Error: No component key provided"] }
    | some k =>
      if env.canImport k then
        let w := env.width k
        let h := env.height k
        let p : Placed := ⟨env.centerX - w / 2, env.centerY - h / 2, w, h⟩
        { hostCalls := [k], placed := [p], selected := some [p],
          scrolled := true,
          notes := [Note.info ("Inserted: " ++ r.icon_name ++ " (" ++
            toString r.size ++ "px, " ++
            (if m = "A" then "Light" else "Dark") ++ ")")],
          crashed := false }
      else
        { hostCalls := [k], placed := [], selected := none, scrolled := false,
          notes := [Note.err ("Error: Could not import \x22" ++ r.icon_name ++
            "\x22. Make sure the library is enabled.")],
          crashed := false }

/-! ## Row-wrap layout -/

/-- Fixed gap between placed instances (`const spacing = 20`). -/
def spacing : ℚ := 20

/-- Fixed row capacity (`const maxRowWidth = 400`). -/
def maxRowWidth : ℚ := 400

/-- Mutable layout bookkeeping of the batch loop.  `placedCount` mirrors
`instances.length` at the time of the wrap check. -/
structure LayoutState where
  currentX : ℚ
  currentY : ℚ
  maxHeightInRow : ℚ
  rowStartX : ℚ
  placedCount : Nat
  deriving Repr, DecidableEq

/-- The wrap check: `currentX - rowStartX + instance.width > maxRowWidth
&& instances.length > 0` resets the cursor to the row start and moves one
shelf down. -/
def wrapIfNeeded (s : LayoutState) (w : ℚ) : LayoutState :=
  if maxRowWidth < s.currentX - s.rowStartX + w ∧ 0 < s.placedCount then
    { s with currentX := s.rowStartX,
             currentY := s.currentY + s.maxHeightInRow + spacing,
             maxHeightInRow := 0 }
  else s

/-- Place one instance of dimensions `(w, h)`: wrap if needed, place at
the cursor, then advance the cursor and the row height. -/
def placeOne (s : LayoutState) (w h : ℚ) : Placed × LayoutState :=
  let s1 := wrapIfNeeded s w
  (⟨s1.currentX, s1.currentY, w, h⟩,
   { s1 with currentX := s1.currentX + w + spacing,
             maxHeightInRow := max s1.maxHeightInRow h,
             placedCount := s1.placedCount + 1 })

/-- Initial layout state: cursor at the viewport center. -/
def initState (env : HostEnv) : LayoutState :=
  ⟨env.centerX, env.centerY, 0, env.centerX, 0⟩

/-- The body of the `insert-multiple` loop.  Unresolved records are
skipped (`if (!componentKey) continue`).  A failed import throws: the
exception propagates out of the loop, so the result also carries an
aborted flag; on abort the records after the failing one are never
reached.  Returns (import calls, placed instances, aborted). -/
def batchLoop (env : HostEnv) (m : String) :
    List IconRecord → LayoutState → List String × List Placed × Bool
  | [], _ => ([], [], false)
  | r :: rest, s =>
    match resolveKey r m with
    | none => batchLoop env m rest s
    | some k =>
      if env.canImport k then
        let pr := placeOne s (env.width k) (env.height k)
        let t := batchLoop env m rest pr.2
        (k :: t.1, pr.1 :: t.2.1, t.2.2)
      else
        ([k], [], true)

/-- The bare success notification of the batch handler:
`Inserted (count) icons (mode)` built from `icons.length`. -/
def insertedMsg (n : Nat) (m : String) : String :=
  "Inserted " ++ toString n ++ " icons (" ++
    (if m = "A" then "Light" else "Dark") ++ ")"

/-- The `insert-multiple` handler of `part_000`.  The try/catch wraps the
whole loop: on an import failure the loop stops, instances created so far
stay on the canvas, no selection or scroll happens, and a single error
notification is shown.  On success the notification counts
`icons.length`, not the number actually placed. -/
def handleInsertMultiple (env : HostEnv) (icons : List IconRecord)
    (mo : Option String) : Trace :=
  let m := effMode mo
  if icons.isEmpty then
    { Trace.nil with notes := [Note.err "No icons selected"] }
  else
    let t := batchLoop env m icons (initState env)
    if t.2.2 then
      { hostCalls := t.1, placed := t.2.1, selected := none,
        scrolled := false,
        notes := [Note.err
          "Error importing some icons. Make sure the library is enabled."],
        crashed := false }
    else
      { hostCalls := t.1, placed := t.2.1, selected := some t.2.1,
        scrolled := true,
        notes := [Note.info (insertedMsg icons.length m)],
        crashed := false }

/-! ## Client-storage cache -/

/-- A JSON-like JavaScript value, the type of the opaque cache payload. -/
inductive JSVal where
  | null
  | bool (b : Bool)
  | num (q : ℚ)
  | str (s : String)
  | arr (elems : List JSVal)
  | obj (fields : List (String × JSVal))
  deriving Repr

/-- JS truthiness of a value (`cached || null` keys on this). -/
def truthyJS : JSVal → Bool
  | JSVal.null => false
  | JSVal.bool b => b
  | JSVal.num q => !(q == 0)
  | JSVal.str s => !s.isEmpty
  | JSVal.arr _ => true
  | JSVal.obj _ => true

/-- `figma.clientStorage`: a string-keyed store, `none` before any write. -/
def Storage := List (String × JSVal)

/-- The store at plugin start: nothing ever written. -/
def Storage.empty : Storage := []

/-- `clientStorage.getAsync`: the stored value, or undefined (`none`). -/
def getAsync (st : Storage) (k : String) : Option JSVal :=
  List.lookup k st

/-- `clientStorage.setAsync`: overwrite the value under `k`. -/
def setAsync (st : Storage) (k : String) (v : JSVal) : Storage :=
  (k, v) :: (List.filter (fun p => !(p.1 == k)) st)

/-- The `cache-data` handler: `setAsync('icon-data', msg.payload)`. -/
def handleCacheData (st : Storage) (payload : JSVal) : Storage :=
  setAsync st "icon-data" payload

/-- The `get-cached-data` handler: posts `cached || null` back to the UI,
where `cached` is `getAsync('icon-data')`. -/
def handleGetCachedData (st : Storage) : JSVal :=
  match getAsync st "icon-data" with
  | none => JSVal.null
  | some v => if truthyJS v then v else JSVal.null

/-! ## Non-overlap of the row-wrap layout -/

/-- Two placed instances do not overlap: their open bounding rectangles
are separated on at least one axis. -/
def PlacedDisjoint (p q : Placed) : Prop :=
  p.x + p.w ≤ q.x ∨ q.x + q.w ≤ p.x ∨ p.y + p.h ≤ q.y ∨ q.y + q.h ≤ p.y

/-- `p` sits in the currently open row of state `s`: same baseline, fully
left of the cursor (with the gap), and no taller than the row height. -/
def InRow (s : LayoutState) (p : Placed) : Prop :=
  p.y = s.currentY ∧ p.x + p.w + spacing ≤ s.currentX ∧ p.h ≤ s.maxHeightInRow

/-- Layout invariant: every already-placed instance is either in the open
row of `s` or entirely above the current baseline (with the gap). -/
def PlacedInv (s : LayoutState) (p : Placed) : Prop :=
  InRow s p ∨ p.y + p.h + spacing ≤ s.currentY

theorem spacing_pos : (0 : ℚ) < spacing := by norm_num [spacing]

theorem wrap_maxH_nonneg (s : LayoutState) (w : ℚ)
    (hm : 0 ≤ s.maxHeightInRow) : 0 ≤ (wrapIfNeeded s w).maxHeightInRow := by
  unfold wrapIfNeeded
  split
  · exact le_refl 0
  · exact hm

theorem wrap_inv (s : LayoutState) (w : ℚ) (p : Placed)
    (hm : 0 ≤ s.maxHeightInRow) (hp : PlacedInv s p) :
    PlacedInv (wrapIfNeeded s w) p := by
  unfold wrapIfNeeded
  split
  · right
    rcases hp with ⟨hy, _, hph⟩ | hb
    · show p.y + p.h + spacing ≤ s.currentY + s.maxHeightInRow + spacing
      rw [hy]
      linarith
    · show p.y + p.h + spacing ≤ s.currentY + s.maxHeightInRow + spacing
      have := spacing_pos
      linarith
  · exact hp

theorem placeOne_maxH_nonneg (s : LayoutState) (w h : ℚ) (hh : 0 ≤ h) :
    0 ≤ (placeOne s w h).2.maxHeightInRow :=
  le_trans hh (le_max_right _ _)

theorem placeOne_preserves (s : LayoutState) (w h : ℚ) (p : Placed)
    (hw : 0 < w) (hm : 0 ≤ s.maxHeightInRow) (hp : PlacedInv s p) :
    PlacedInv (placeOne s w h).2 p := by
  have h1 : PlacedInv (wrapIfNeeded s w) p := wrap_inv s w p hm hp
  unfold placeOne
  rcases h1 with ⟨hy, hx, hph⟩ | hb
  · left
    refine ⟨hy, ?_, le_trans hph (le_max_left _ _)⟩
    show p.x + p.w + spacing ≤ (wrapIfNeeded s w).currentX + w + spacing
    have := spacing_pos
    linarith
  · exact Or.inr hb

theorem placeOne_new_inv (s : LayoutState) (w h : ℚ) :
    PlacedInv (placeOne s w h).2 (placeOne s w h).1 := by
  unfold placeOne
  exact Or.inl ⟨rfl, le_refl _, le_max_right _ _⟩

theorem placeOne_fresh_disjoint (s : LayoutState) (w h : ℚ) (p : Placed)
    (hm : 0 ≤ s.maxHeightInRow) (hp : PlacedInv s p) :
    PlacedDisjoint p (placeOne s w h).1 := by
  have h1 : PlacedInv (wrapIfNeeded s w) p := wrap_inv s w p hm hp
  unfold placeOne
  rcases h1 with ⟨hy, hx, _⟩ | hb
  · left
    show p.x + p.w ≤ (wrapIfNeeded s w).currentX
    have := spacing_pos
    linarith
  · right; right; left
    show p.y + p.h ≤ (wrapIfNeeded s w).currentY
    have := spacing_pos
    linarith

theorem batchLoop_inv_disjoint (env : HostEnv) (m : String)
    (hw : ∀ k, 0 < env.width k) (hh : ∀ k, 0 < env.height k) :
    ∀ (icons : List IconRecord) (s : LayoutState) (q : Placed),
      0 ≤ s.maxHeightInRow → PlacedInv s q →
      ∀ p ∈ (batchLoop env m icons s).2.1, PlacedDisjoint q p := by
  intro icons
  induction icons with
  | nil =>
    intro s q _ _ p hp
    simp [batchLoop] at hp
  | cons r rest ih =>
    intro s q hm hq p hp
    unfold batchLoop at hp
    split at hp
    · exact ih s q hm hq p hp
    · rename_i k _
      split at hp
      · rename_i hok
        simp only [List.mem_cons] at hp
        rcases hp with rfl | hp
        · exact placeOne_fresh_disjoint s (env.width k) (env.height k) q hm hq
        · exact ih (placeOne s (env.width k) (env.height k)).2 q
            (placeOne_maxH_nonneg s _ _ (le_of_lt (hh k)))
            (placeOne_preserves s _ _ q (hw k) hm hq) p hp
      · simp at hp

theorem batchLoop_pairwise (env : HostEnv) (m : String)
    (hw : ∀ k, 0 < env.width k) (hh : ∀ k, 0 < env.height k) :
    ∀ (icons : List IconRecord) (s : LayoutState), 0 ≤ s.maxHeightInRow →
      ((batchLoop env m icons s).2.1).Pairwise PlacedDisjoint := by
  intro icons
  induction icons with
  | nil =>
    intro s _
    simp [batchLoop]
  | cons r rest ih =>
    intro s hm
    unfold batchLoop
    split
    · exact ih s hm
    · rename_i k _
      split
      · refine List.Pairwise.cons ?_
          (ih (placeOne s (env.width k) (env.height k)).2
            (placeOne_maxH_nonneg s _ _ (le_of_lt (hh k))))
        intro p hp
        exact batchLoop_inv_disjoint env m hw hh rest
          (placeOne s (env.width k) (env.height k)).2
          (placeOne s (env.width k) (env.height k)).1
          (placeOne_maxH_nonneg s _ _ (le_of_lt (hh k)))
          (placeOne_new_inv s _ _) p hp
      · simp

/-- The placed list of the batch handler is empty or exactly the list the
loop produced. -/
theorem handleInsertMultiple_placed (env : HostEnv) (icons : List IconRecord)
    (mo : Option String) :
    (handleInsertMultiple env icons mo).placed = [] ∨
    (handleInsertMultiple env icons mo).placed =
      (batchLoop env (effMode mo) icons (initState env)).2.1 := by
  unfold handleInsertMultiple
  by_cases hic : icons.isEmpty
  · simp [hic, Trace.nil]
  · simp only [hic, Bool.false_eq_true, if_false]
    split
    · right; rfl
    · right; rfl

/-! ## Batch loop: abort structure and counts -/

/-- If the loop does not abort, every attempted import succeeded; if it
aborts, the failing key is the last import call and every earlier call
succeeded — no record after the failure is processed. -/
theorem batchLoop_abort_spec (env : HostEnv) (m : String) :
    ∀ (icons : List IconRecord) (s : LayoutState),
      ((batchLoop env m icons s).2.2 = false →
        ∀ k ∈ (batchLoop env m icons s).1, env.canImport k = true) ∧
      ((batchLoop env m icons s).2.2 = true →
        ∃ pre kf, (batchLoop env m icons s).1 = pre ++ [kf] ∧
          env.canImport kf = false ∧
          ∀ k ∈ pre, env.canImport k = true) := by
  intro icons
  induction icons with
  | nil =>
    intro s
    refine ⟨fun _ k hk => ?_, fun hab => ?_⟩
    · simp [batchLoop] at hk
    · simp [batchLoop] at hab
  | cons r rest ih =>
    intro s
    constructor
    · intro hok k hk
      unfold batchLoop at hok hk
      cases hres : resolveKey r m with
      | none =>
        simp only [hres] at hok hk
        exact (ih s).1 hok k hk
      | some k' =>
        by_cases hcan : env.canImport k' = true
        · simp [hres, if_pos hcan] at hok hk
          rcases hk with rfl | hk
          · exact hcan
          · exact (ih _).1 hok k hk
        · simp [hres, if_neg hcan] at hok
    · intro hab
      unfold batchLoop at hab ⊢
      cases hres : resolveKey r m with
      | none =>
        simp only [hres] at hab ⊢
        exact (ih s).2 hab
      | some k' =>
        by_cases hcan : env.canImport k' = true
        · simp only [hres, if_pos hcan] at hab ⊢
          obtain ⟨pre, kf, heq, hkf, hpre⟩ := (ih _).2 hab
          refine ⟨k' :: pre, kf, ?_, hkf, ?_⟩
          · simp [heq]
          · intro k hk
            rcases List.mem_cons.mp hk with rfl | hk
            · exact hcan
            · exact hpre k hk
        · simp only [hres, if_neg hcan] at hab ⊢
          refine ⟨[], k', by simp, ?_, by simp⟩
          simpa using hcan

/-- When every import succeeds, the loop never aborts, and both the list
of import calls and the list of placed instances have exactly one entry
per resolvable record. -/
theorem batchLoop_all_ok (env : HostEnv) (m : String)
    (hok : ∀ k, env.canImport k = true) :
    ∀ (icons : List IconRecord) (s : LayoutState),
      (batchLoop env m icons s).2.2 = false ∧
      (batchLoop env m icons s).1.length =
        (icons.filter (fun r => (resolveKey r m).isSome)).length ∧
      (batchLoop env m icons s).2.1.length =
        (icons.filter (fun r => (resolveKey r m).isSome)).length := by
  intro icons
  induction icons with
  | nil =>
    intro s
    simp [batchLoop]
  | cons r rest ih =>
    intro s
    unfold batchLoop
    cases hres : resolveKey r m with
    | none =>
      simpa [List.filter_cons, hres] using ih s
    | some k =>
      have h1 := ih (placeOne s (env.width k) (env.height k)).2
      simp [List.filter_cons, hres, hok k, h1.1, h1.2.1, h1.2.2]

/-! ## Concrete test fixtures -/

/-- A host whose components are all 150 × 50, viewport center (1000,1000),
every import succeeding. -/
def env150 : HostEnv :=
  ⟨1000, 1000, fun _ => true, fun _ => 150, fun _ => 50⟩

/-- A record resolving through its standalone component key. -/
def icon150 : IconRecord := ⟨"pin", 16, none, some "k"⟩

def icons3 : List IconRecord := [icon150, icon150, icon150]

def icons4 : List IconRecord := [icon150, icon150, icon150, icon150]

theorem icon150_resolve (m : String) : resolveKey icon150 m = some "k" := rfl

theorem env150_can (k : String) : env150.canImport k = true := rfl

theorem env150_w (k : String) : env150.width k = 150 := rfl

theorem env150_h (k : String) : env150.height k = 50 := rfl

/-- A record with both a light variant key and a standalone key. -/
def rBoth : IconRecord := ⟨"compass", 24, some [("A", "keyA"), ("B", "keyB")], some "keyC"⟩

/-- A record with only a light variant key. -/
def rAonly : IconRecord := ⟨"layers", 32, some [("A", "keyA2")], none⟩

/-- A record with no identifier at all. -/
def rBare : IconRecord := ⟨"ghost", 16, none, none⟩

/-- A host failing exactly the import of key "k2". -/
def envFail2 : HostEnv :=
  ⟨1000, 1000, fun k => !(k == "k2"), fun _ => 150, fun _ => 50⟩

def iconK1 : IconRecord := ⟨"a", 16, none, some "k1"⟩

def iconK2 : IconRecord := ⟨"b", 16, none, some "k2"⟩

def iconK3 : IconRecord := ⟨"c", 16, none, some "k3"⟩

def iconsK : List IconRecord := [iconK1, iconK2, iconK3]

/-- Five records, the second and fourth unresolvable. -/
def icons5 : List IconRecord := [icon150, rBare, icon150, rBare, icon150]

theorem iconK1_resolve (m : String) : resolveKey iconK1 m = some "k1" := rfl

theorem iconK2_resolve (m : String) : resolveKey iconK2 m = some "k2" := rfl

theorem iconK3_resolve (m : String) : resolveKey iconK3 m = some "k3" := rfl

theorem rBare_resolve (m : String) : resolveKey rBare m = none := rfl

theorem envFail2_w (k : String) : envFail2.width k = 150 := rfl

theorem envFail2_h (k : String) : envFail2.height k = 50 := rfl

theorem envFail2_k1 : envFail2.canImport "k1" = true := by decide

theorem envFail2_k2 : envFail2.canImport "k2" = false := by decide

theorem envFail2_k3 : envFail2.canImport "k3" = true := by decide

theorem initState_envFail2 : initState envFail2 = ⟨1000, 1000, 0, 1000, 0⟩ := rfl

/-! ## Claims -/

/-- C1: identifier resolution follows the spec's strict precedence with
first match winning — `variantKeys[m]` if non-empty, else
`variantKeys["A"]` if non-empty, else `componentKey` if non-empty, else
unresolved — and a record with both `variantKeys.A` and `componentKey`
set, requested in mode "A", resolves to `variantKeys.A`, never to
`componentKey`. -/
theorem resolution_precedence_spec (r : IconRecord) (m : String) :
    resolveKey r m = specResolve r m ∧
    (truthyStr (vkLookup r "A") = true → truthyStr r.component_key = true →
      resolveKey r "A" = vkLookup r "A") := by
  refine ⟨resolveKey_eq_specResolve r m, fun hA _ => ?_⟩
  simp [resolveKey, hA]

/-- C1 witness: a record carrying both `variantKeys.A = "keyA"` and
`componentKey = "keyC"`, requested in mode "A", resolves to "keyA". -/
theorem resolution_precedence_spec_witness :
    truthyStr (vkLookup rBoth "A") = true ∧
    truthyStr rBoth.component_key = true ∧
    resolveKey rBoth "A" = vkLookup rBoth "A" ∧
    vkLookup rBoth "A" = some "keyA" :=
  ⟨rfl, rfl, (resolution_precedence_spec rBoth "A").2 rfl rfl, rfl⟩

/-- C10: for a requested mode `m` that is not a key of `variant_keys`,
resolution yields exactly what requesting mode "A" yields, and when a
non-empty `variant_keys.A` is present it silently falls back to it. -/
theorem unknown_mode_falls_back_to_A (r : IconRecord) (m : String)
    (h : vkLookup r m = none) :
    resolveKey r m = resolveKey r "A" ∧
    (truthyStr (vkLookup r "A") = true → resolveKey r m = vkLookup r "A") := by
  have hm : truthyStr (vkLookup r m) = false := by rw [h]; rfl
  constructor
  · by_cases hA : truthyStr (vkLookup r "A") = true
    · simp [resolveKey, hm, hA]
    · have hA' : truthyStr (vkLookup r "A") = false := by simpa using hA
      simp [resolveKey, hm, hA']
  · intro hA
    simp [resolveKey, hm, hA]

/-- C10 witness: requesting the nonexistent mode tag "C" on a light-only
record resolves just like mode "A", to `variant_keys.A`. -/
theorem unknown_mode_falls_back_to_A_witness :
    vkLookup rAonly "C" = none ∧
    resolveKey rAonly "C" = resolveKey rAonly "A" ∧
    resolveKey rAonly "C" = vkLookup rAonly "A" :=
  ⟨rfl, (unknown_mode_falls_back_to_A rAonly "C" rfl).1,
   (unknown_mode_falls_back_to_A rAonly "C" rfl).2 rfl⟩

/-- C7: a single insert whose record resolves to no identifier issues
zero host import calls, mutates nothing on the canvas, and produces
exactly one error notification. -/
theorem single_insert_unresolved (env : HostEnv) (r : IconRecord)
    (mo : Option String) (h : resolveKey r (effMode mo) = none) :
    (handleInsertIcon env (some r) mo).hostCalls = [] ∧
    (handleInsertIcon env (some r) mo).placed = [] ∧
    (handleInsertIcon env (some r) mo).selected = none ∧
    (handleInsertIcon env (some r) mo).notes =
      [Note.err "Error: No component key provided"] ∧
    (handleInsertIcon env (some r) mo).crashed = false := by
  simp [handleInsertIcon, h, Trace.nil]

/-- C7 witness: inserting a record with no variant keys and no component
key yields no host call and the single error notification. -/
theorem single_insert_unresolved_witness :
    resolveKey rBare (effMode none) = none ∧
    (handleInsertIcon env150 (some rBare) none).hostCalls = [] ∧
    (handleInsertIcon env150 (some rBare) none).notes =
      [Note.err "Error: No component key provided"] := by
  have h := single_insert_unresolved env150 rBare none rfl
  exact ⟨rfl, h.1, h.2.2.2.1⟩

/-- C8: a successful single insert centers the lone instance on the
viewport center — top-left at (center.x − width/2, center.y − height/2) —
selects it, and scrolls it into view. -/
theorem single_insert_centered (env : HostEnv) (r : IconRecord)
    (mo : Option String) (k : String)
    (h : resolveKey r (effMode mo) = some k) (hok : env.canImport k = true) :
    (handleInsertIcon env (some r) mo).placed =
      [⟨env.centerX - env.width k / 2, env.centerY - env.height k / 2,
        env.width k, env.height k⟩] ∧
    (handleInsertIcon env (some r) mo).selected =
      some (handleInsertIcon env (some r) mo).placed ∧
    (handleInsertIcon env (some r) mo).scrolled = true := by
  simp [handleInsertIcon, h, hok]

/-- C8 witness: a 150 × 50 component inserted with the viewport center at
(1000, 1000) gets its top-left at (925, 975). -/
theorem single_insert_centered_witness :
    resolveKey icon150 (effMode none) = some "k" ∧
    env150.canImport "k" = true ∧
    (handleInsertIcon env150 (some icon150) none).placed =
      [⟨925, 975, 150, 50⟩] ∧
    (handleInsertIcon env150 (some icon150) none).selected =
      some (handleInsertIcon env150 (some icon150) none).placed ∧
    (handleInsertIcon env150 (some icon150) none).scrolled = true := by
  have h := single_insert_centered env150 icon150 none "k" rfl rfl
  refine ⟨rfl, rfl, ?_, h.2.1, h.2.2⟩
  rw [h.1]
  norm_num [env150]

/-- C6: evaluation at the failing input.  A batch with zero icons is
rejected with a user notification and no host calls, as claimed; but a
single-insert message with `iconData` missing dereferences
`iconData.variant_keys` before any guard and throws a TypeError outside
the try/catch — no notification is produced (though no host call is made
either). -/
theorem empty_request_handling (env : HostEnv) (mo : Option String) :
    (handleInsertMultiple env [] mo).notes = [Note.err "No icons selected"] ∧
    (handleInsertMultiple env [] mo).hostCalls = [] ∧
    (handleInsertIcon env none mo).crashed = true ∧
    (handleInsertIcon env none mo).notes = [] ∧
    (handleInsertIcon env none mo).hostCalls = [] := by
  refine ⟨?_, ?_, rfl, rfl, rfl⟩ <;> simp [handleInsertMultiple, Trace.nil]

/-- C5 (amended): a JS-truthy payload survives the cache round-trip
exactly; before any write the reply is the null sentinel, which is
distinguishable from an empty catalog (an empty array); but the read
path's `cached || null` collapses falsy payloads to null. -/
theorem cache_roundtrip_truthy (st : Storage) (p : JSVal)
    (h : truthyJS p = true) :
    handleGetCachedData (handleCacheData st p) = p ∧
    handleGetCachedData Storage.empty = JSVal.null ∧
    JSVal.null ≠ JSVal.arr [] := by
  refine ⟨?_, rfl, fun he => by cases he⟩
  simp [handleGetCachedData, handleCacheData, setAsync, getAsync, List.lookup, h]

/-- C5 witness: an empty catalog (empty array) is truthy and round-trips
unchanged. -/
theorem cache_roundtrip_truthy_witness :
    truthyJS (JSVal.arr []) = true ∧
    handleGetCachedData (handleCacheData Storage.empty (JSVal.arr [])) =
      JSVal.arr [] ∧
    handleGetCachedData Storage.empty = JSVal.null :=
  ⟨rfl, (cache_roundtrip_truthy Storage.empty (JSVal.arr []) rfl).1,
   (cache_roundtrip_truthy Storage.empty (JSVal.arr []) rfl).2.1⟩

/-- C5 counterexample: the payload `false` does not round-trip — it is
read back as null — so the claim's "for every payload P" fails. -/
theorem cache_roundtrip_falsy_counterexample :
    handleGetCachedData (handleCacheData Storage.empty (JSVal.bool false)) =
      JSVal.null ∧
    JSVal.null ≠ JSVal.bool false := by
  refine ⟨?_, fun he => by cases he⟩
  simp [handleGetCachedData, handleCacheData, setAsync, getAsync,
    List.lookup, truthyJS, Storage.empty]

/-- C2 counterexample: with three 150 × 50 objects from center
(1000, 1000), the produced placements are not the claimed
[(1000,1000), (1170,1000), (1340,1000)] — the third object wraps, since
its wrap check uses the advanced cursor (1340 − 1000 + 150 = 490 > 400). -/
theorem rowwrap_example_counterexample :
    (handleInsertMultiple env150 icons3 none).placed ≠
      [⟨1000, 1000, 150, 50⟩, ⟨1170, 1000, 150, 50⟩, ⟨1340, 1000, 150, 50⟩] := by
  norm_num [handleInsertMultiple, icons3, batchLoop, icon150_resolve, env150_can,
    env150_w, env150_h, initState, placeOne, wrapIfNeeded, spacing, maxRowWidth,
    env150, effMode, Trace.nil]

/-- C2 (amended): objects 1 and 2 land at (1000,1000) and (1170,1000);
object 3 triggers the wrap and lands at (1000,1070); a fourth object of
width 150 lands next to it at (1170,1070). -/
theorem rowwrap_example_actual :
    (handleInsertMultiple env150 icons3 none).placed =
      [⟨1000, 1000, 150, 50⟩, ⟨1170, 1000, 150, 50⟩, ⟨1000, 1070, 150, 50⟩] ∧
    (handleInsertMultiple env150 icons4 none).placed =
      [⟨1000, 1000, 150, 50⟩, ⟨1170, 1000, 150, 50⟩,
       ⟨1000, 1070, 150, 50⟩, ⟨1170, 1070, 150, 50⟩] := by
  constructor <;>
    norm_num [handleInsertMultiple, icons3, icons4, batchLoop, icon150_resolve,
      env150_can, env150_w, env150_h, initState, placeOne, wrapIfNeeded, spacing,
      maxRowWidth, env150, effMode, Trace.nil]

/-- C4 (amended): when every import succeeds, a batch makes exactly one
host import call and places exactly one instance per resolvable record, the
placed set is selected — but the final notification reports the requested
count `icons.length`, not the success count. -/
theorem batch_partial_success_counts (env : HostEnv) (icons : List IconRecord)
    (mo : Option String) (hok : ∀ k, env.canImport k = true)
    (hne : icons ≠ []) :
    (handleInsertMultiple env icons mo).hostCalls.length =
      (icons.filter (fun r => (resolveKey r (effMode mo)).isSome)).length ∧
    (handleInsertMultiple env icons mo).placed.length =
      (icons.filter (fun r => (resolveKey r (effMode mo)).isSome)).length ∧
    (handleInsertMultiple env icons mo).selected =
      some (handleInsertMultiple env icons mo).placed ∧
    (handleInsertMultiple env icons mo).notes =
      [Note.info (insertedMsg icons.length (effMode mo))] := by
  have h := batchLoop_all_ok env (effMode mo) hok icons (initState env)
  have hic : icons.isEmpty = false := by
    cases icons with
    | nil => exact absurd rfl hne
    | cons a l => rfl
  unfold handleInsertMultiple
  simp only [hic, Bool.false_eq_true, if_false, h.1]
  simp [h.2.1, h.2.2]

/-- C4 witness: five records of which two are unresolvable — three import
calls, three placed and selected, yet the notification says
"Inserted 5 icons (Light)". -/
theorem batch_partial_success_counts_witness :
    (∀ k, env150.canImport k = true) ∧ icons5 ≠ [] ∧
    (handleInsertMultiple env150 icons5 none).hostCalls.length = 3 ∧
    (handleInsertMultiple env150 icons5 none).placed.length = 3 ∧
    (handleInsertMultiple env150 icons5 none).selected =
      some (handleInsertMultiple env150 icons5 none).placed ∧
    (handleInsertMultiple env150 icons5 none).notes =
      [Note.info (insertedMsg 5 "A")] := by
  have h := batch_partial_success_counts env150 icons5 none (fun _ => rfl)
    (by simp [icons5])
  refine ⟨fun _ => rfl, by simp [icons5], ?_, ?_, h.2.2.1, ?_⟩
  · rw [h.1]; rfl
  · rw [h.2.1]; rfl
  · rw [h.2.2.2]; rfl

/-- C4 counterexample: on the five-record batch the notification is
"Inserted 5 icons (Light)" — the requested count — and that is not the
success-count notification "Inserted 3 icons (Light)" the claim asserts. -/
theorem batch_notify_count_counterexample :
    (handleInsertMultiple env150 icons5 none).hostCalls.length = 3 ∧
    (handleInsertMultiple env150 icons5 none).placed.length = 3 ∧
    (handleInsertMultiple env150 icons5 none).notes =
      [Note.info (insertedMsg 5 "A")] ∧
    Note.info (insertedMsg 5 "A") ≠ Note.info (insertedMsg 3 "A") := by
  refine ⟨?_, ?_, ?_, by decide⟩ <;>
    norm_num [handleInsertMultiple, icons5, batchLoop, icon150_resolve,
      rBare_resolve, env150_can, env150_w, env150_h, initState, placeOne,
      wrapIfNeeded, spacing, maxRowWidth, env150, effMode, Trace.nil,
      insertedMsg]

/-- C3 counterexample: with imports failing exactly on "k2", a batch of
three resolvable records imports only "k1" and "k2" — the loop does not
continue past the failure — the instance placed before the failure stays
on the canvas unselected, and the single notification is the error
message, not an aggregate success count. -/
theorem batch_import_failure_counterexample :
    (handleInsertMultiple envFail2 iconsK none).hostCalls = ["k1", "k2"] ∧
    (handleInsertMultiple envFail2 iconsK none).placed =
      [⟨1000, 1000, 150, 50⟩] ∧
    (handleInsertMultiple envFail2 iconsK none).selected = none ∧
    (handleInsertMultiple envFail2 iconsK none).notes =
      [Note.err "Error importing some icons. Make sure the library is enabled."] := by
  refine ⟨?_, ?_, ?_, ?_⟩ <;>
    norm_num [handleInsertMultiple, iconsK, batchLoop, iconK1_resolve,
      iconK2_resolve, iconK3_resolve, envFail2_k1, envFail2_k2, envFail2_k3,
      envFail2_w, envFail2_h, initState_envFail2, placeOne, wrapIfNeeded,
      spacing, maxRowWidth, effMode, Trace.nil]

/-- C3 (amended): an import failure in a batch is caught by the try/catch
wrapping the whole loop, not per record: the failing call is the last
one made (records after it are never processed), no selection or
scroll happens, a single error notification is shown instead of a success
count, and the handler does not crash. -/
theorem batch_import_failure_aborts (env : HostEnv) (icons : List IconRecord)
    (mo : Option String)
    (h : ∃ k ∈ (handleInsertMultiple env icons mo).hostCalls,
      env.canImport k = false) :
    (handleInsertMultiple env icons mo).selected = none ∧
    (handleInsertMultiple env icons mo).scrolled = false ∧
    (handleInsertMultiple env icons mo).notes =
      [Note.err "Error importing some icons. Make sure the library is enabled."] ∧
    (handleInsertMultiple env icons mo).crashed = false ∧
    (∃ pre kf, (handleInsertMultiple env icons mo).hostCalls = pre ++ [kf] ∧
      env.canImport kf = false ∧ ∀ k ∈ pre, env.canImport k = true) := by
  by_cases hic : icons.isEmpty
  · obtain ⟨k, hk, _⟩ := h
    simp [handleInsertMultiple, hic, Trace.nil] at hk
  · have hspec := batchLoop_abort_spec env (effMode mo) icons (initState env)
    by_cases hab : (batchLoop env (effMode mo) icons (initState env)).2.2 = true
    · obtain ⟨pre, kf, heq, hkf, hpre⟩ := hspec.2 hab
      refine ⟨?_, ?_, ?_, ?_, ⟨pre, kf, ?_, hkf, hpre⟩⟩ <;>
        simp [handleInsertMultiple, hic, hab, heq]
    · obtain ⟨k, hk, hkf⟩ := h
      have hallok := hspec.1 (by simpa using hab)
      have hin : k ∈ (batchLoop env (effMode mo) icons (initState env)).1 := by
        have hab' : (batchLoop env (effMode mo) icons (initState env)).2.2 =
            false := by simpa using hab
        simpa [handleInsertMultiple, hic, hab'] using hk
      rw [hallok k hin] at hkf
      cases hkf

/-- C3 witness: the concrete failing batch satisfies the hypothesis
(the call to "k2" fails) and the handler aborts as described. -/
theorem batch_import_failure_aborts_witness :
    (∃ k ∈ (handleInsertMultiple envFail2 iconsK none).hostCalls,
      envFail2.canImport k = false) ∧
    (handleInsertMultiple envFail2 iconsK none).selected = none ∧
    (handleInsertMultiple envFail2 iconsK none).notes =
      [Note.err "Error importing some icons. Make sure the library is enabled."] ∧
    (handleInsertMultiple envFail2 iconsK none).crashed = false := by
  have hmem : "k2" ∈ (handleInsertMultiple envFail2 iconsK none).hostCalls := by
    norm_num [handleInsertMultiple, iconsK, batchLoop, iconK1_resolve,
      iconK2_resolve, iconK3_resolve, envFail2_k1, envFail2_k2, envFail2_k3,
      envFail2_w, envFail2_h, initState_envFail2, placeOne, wrapIfNeeded,
      spacing, maxRowWidth, effMode, Trace.nil]
  have hyp : ∃ k ∈ (handleInsertMultiple envFail2 iconsK none).hostCalls,
      envFail2.canImport k = false := ⟨"k2", hmem, envFail2_k2⟩
  have h := batch_import_failure_aborts envFail2 iconsK none hyp
  exact ⟨hyp, h.1, h.2.2.1, h.2.2.2.1⟩

/-- C9: whenever all discovered widths and heights are positive, the
row-wrap layout places the batch's instances at pairwise non-overlapping
positions. -/
theorem batch_placements_disjoint (env : HostEnv) (icons : List IconRecord)
    (mo : Option String) (hw : ∀ k, 0 < env.width k)
    (hh : ∀ k, 0 < env.height k) :
    ((handleInsertMultiple env icons mo).placed).Pairwise PlacedDisjoint := by
  rcases handleInsertMultiple_placed env icons mo with h | h
  · rw [h]
    exact List.Pairwise.nil
  · rw [h]
    exact batchLoop_pairwise env (effMode mo) hw hh icons (initState env)
      (le_refl 0)

/-- C9 witness: the three 150 × 50 instances of the concrete batch are
pairwise disjoint. -/
theorem batch_placements_disjoint_witness :
    (∀ k, (0 : ℚ) < env150.width k) ∧ (∀ k, (0 : ℚ) < env150.height k) ∧
    ((handleInsertMultiple env150 icons3 none).placed).Pairwise PlacedDisjoint :=
  ⟨fun _ => by norm_num [env150], fun _ => by norm_num [env150],
   batch_placements_disjoint env150 icons3 none (fun _ => by norm_num [env150])
     (fun _ => by norm_num [env150])⟩

end IconEsri
